import Mathlib

/-!
Shallow embedding of the booking/stock/payment core of the
go-game-rental-api repository, together with proofs about its claims.

Conventions of the embedding:
* Machine integers (`int`, `uint`) become `Nat` for identifiers and `Int`
  for stock quantities (none of the operations modelled can overflow a
  64-bit integer before they would exhaust the database).
* `float64` monetary amounts become `ℚ`; on the values reached by the
  modelled operations the Go `float64` arithmetic (one multiplication of
  an integer day count by a price, one addition of a deposit) is exact,
  so `ℚ` refines it faithfully.
* `time.Time` values become `Int` numbers of hours since an arbitrary
  epoch.  Booking dates are stored with day granularity (`type:date`), so
  every date is a multiple of 24; the embedding keeps hour resolution so
  that `Duration.Hours()/24` keeps its exact meaning.  `int(x)` conversion
  in Go truncates toward zero, which on an exact hour count equals
  `Int.div` (T-division).
* The relational store becomes a `Store` of lists of rows; gorm `First`
  becomes `List.find?`, a gorm `UPDATE ... WHERE` becomes `List.map` with
  the `WHERE` clause as the condition.  Database connectivity failures are
  not modelled: a gorm update that matches zero rows still returns a `nil`
  error, which the embedding renders as `Except.ok`.
* Fire-and-forget email goroutines have no effect on the modelled state
  and are omitted.
-/

/-- Booking lifecycle states, from `internal/model` (`BookingStatus`). -/
inductive BookingStatus where
  | pendingPayment
  | confirmed
  | active
  | completed
  | cancelled
  | disputed
deriving Repr, DecidableEq

/-- Payment states, from `internal/model` (`PaymentStatus`). -/
inductive PaymentStatus where
  | pending
  | paid
  | failed
  | refunded
deriving Repr, DecidableEq

/-- Payment providers, from `internal/model` (`PaymentProvider`). -/
inductive PaymentProvider where
  | stripe
  | midtrans
deriving Repr, DecidableEq

/-- Item approval states, from `internal/model` (`ApprovalStatus`). -/
inductive ApprovalStatus where
  | pending
  | approved
  | rejected
deriving Repr, DecidableEq

/-- User roles, from `internal/model` (`UserRole`). -/
inductive UserRole where
  | customer
  | partner
  | admin
  | superAdmin
deriving Repr, DecidableEq

/-- Every distinguishable error value returned by the embedded services,
collecting the `errors.New` values of the service files. -/
inductive ServiceError where
  | gameNotFound
  | gameNotAvailable
  | gameStockInsufficient
  | bookingNotFound
  | bookingNotOwned
  | bookingInvalidDate
  | bookingDateConflict
  | bookingGameNotActive
  | bookingCannotCancel
  | bookingCannotConfirm
  | bookingNotPendingPayment
  | userNotFound
  | insufficientPermission
  | cannotDeleteSelf
  | cannotDeleteSuperAdmin
  | paymentNotFound
  | paymentGatewayError
  | unknownPaymentStatus (s : String)
deriving Repr, DecidableEq

deriving instance DecidableEq for Except

/-- The `Game` row (`internal/model`): the rentable item with its stock
ledger fields.  Only the columns read or written by the modelled
operations are kept. -/
structure Game where
  id : Nat
  partnerId : Nat
  stock : Int
  availableStock : Int
  rentalPricePerDay : ℚ
  securityDeposit : ℚ
  isActive : Bool
  approvalStatus : ApprovalStatus
deriving Repr, DecidableEq

/-- The `Booking` row (`internal/model`). -/
structure Booking where
  id : Nat
  userId : Nat
  gameId : Nat
  partnerId : Nat
  startDate : Int
  endDate : Int
  rentalDays : Int
  dailyPrice : ℚ
  totalRentalPrice : ℚ
  securityDeposit : ℚ
  totalAmount : ℚ
  status : BookingStatus
  notes : Option String
deriving Repr, DecidableEq

/-- The `Payment` row (`internal/model`). -/
structure Payment where
  id : Nat
  bookingId : Nat
  provider : PaymentProvider
  providerPaymentId : Option String
  amount : ℚ
  status : PaymentStatus
  paymentMethod : Option String
  failureReason : Option String
deriving Repr, DecidableEq

/-- The `User` row (`internal/model`), reduced to the columns the
modelled operations consult. -/
structure User where
  id : Nat
  role : UserRole
  isActive : Bool
deriving Repr, DecidableEq

/-- The relational store: one list of rows per table touched by the
modelled operations. -/
structure Store where
  games : List Game
  bookings : List Booking
  payments : List Payment
  users : List User
deriving Repr, DecidableEq

/-- Repository lookup `gameRepository.GetByID` (gorm `First` by primary
key): the first row with the given id, if any. -/
def getGame (st : Store) (gameID : Nat) : Option Game :=
  st.games.find? fun g => g.id == gameID

/-- Repository lookup `bookingRepository.GetByID`. -/
def getBooking (st : Store) (bookingID : Nat) : Option Booking :=
  st.bookings.find? fun b => b.id == bookingID

/-- Repository lookup `userRepository.GetByID`. -/
def getUser (st : Store) (userID : Nat) : Option User :=
  st.users.find? fun u => u.id == userID

/-- Repository lookup `paymentRepository.GetByBookingID`. -/
def getPaymentByBookingID (st : Store) (bookingID : Nat) : Option Payment :=
  st.payments.find? fun p => p.bookingId == bookingID

/-- Repository lookup `paymentRepository.GetByProviderPaymentID`. -/
def getPaymentByProviderPaymentID (st : Store) (providerPaymentID : String) : Option Payment :=
  st.payments.find? fun p => p.providerPaymentId == some providerPaymentID

/-- State change of `gameRepository.ReserveStock` (`game_repo.go:98`):
`UPDATE games SET available_stock = available_stock - 1
 WHERE id = ? AND available_stock > 0`. -/
def reserveStockUpd (st : Store) (gameID : Nat) : Store :=
  { st with games := st.games.map fun g =>
      if g.id = gameID ∧ 0 < g.availableStock then
        { g with availableStock := g.availableStock - 1 }
      else g }

/-- Full result of `gameRepository.ReserveStock`: gorm's `Update` returns
a `nil` error even when the `WHERE` clause matches zero rows, so absent a
database outage the call always succeeds. -/
def reserveStock (st : Store) (gameID : Nat) : Except ServiceError Store :=
  .ok (reserveStockUpd st gameID)

/-- State change of `gameRepository.ReleaseStock` (`game_repo.go:103`):
`UPDATE games SET available_stock = LEAST(available_stock + 1, stock)
 WHERE id = ?`. -/
def releaseStockUpd (st : Store) (gameID : Nat) : Store :=
  { st with games := st.games.map fun g =>
      if g.id = gameID then
        { g with availableStock := min (g.availableStock + 1) g.stock }
      else g }

/-- Full result of `gameRepository.ReleaseStock` (always a `nil` error,
as for `reserveStock`). -/
def releaseStock (st : Store) (gameID : Nat) : Except ServiceError Store :=
  .ok (releaseStockUpd st gameID)

/-- Read-only check `gameRepository.CheckAvailability` (`game_repo.go:90`):
`available_stock > 0` of the addressed row, `none` when the row is
missing (gorm record-not-found error). -/
def checkAvailability (st : Store) (gameID : Nat) : Option Bool :=
  (getGame st gameID).map fun g => 0 < g.availableStock

/-- Quantity-aware check `gameRepository.CheckAvailability(gameID, quantity)`
of the richer variant (`part_015:175`): `available_stock >= quantity`. -/
def checkAvailabilityQty (st : Store) (gameID : Nat) (quantity : Int) : Option Bool :=
  (getGame st gameID).map fun g => quantity ≤ g.availableStock

/-- Repository write `gameRepository.UpdateAvailableStock` (`part_015:169`). -/
def updateAvailableStock (st : Store) (gameID : Nat) (newAvailableStock : Int) : Store :=
  { st with games := st.games.map fun g =>
      if g.id = gameID then { g with availableStock := newAvailableStock } else g }

/-- Quantity-aware reserve of the richer variant, from
`gameService.ReserveStock` (`game_service.go:231`): read the row, fail
with the stock-insufficient error when `available_stock < quantity`, else
write back the decremented value. -/
def reserveStockQty (st : Store) (gameID : Nat) (quantity : Int) : Except ServiceError Store :=
  match getGame st gameID with
  | none => .error .gameNotFound
  | some game =>
    if game.availableStock < quantity then .error .gameStockInsufficient
    else .ok (updateAvailableStock st gameID (game.availableStock - quantity))

/-- Quantity-aware release of the richer variant, from
`gameService.ReleaseStock` (`game_service.go:244`): increment clamped to
the total stock. -/
def releaseStockQty (st : Store) (gameID : Nat) (quantity : Int) : Except ServiceError Store :=
  match getGame st gameID with
  | none => .error .gameNotFound
  | some game =>
    let newAvailableStock := game.availableStock + quantity
    let clamped := if game.stock < newAvailableStock then game.stock else newAvailableStock
    .ok (updateAvailableStock st gameID clamped)

/-- Repository write `bookingRepository.UpdateStatus` (`part_014:74`):
`UPDATE bookings SET status = ? WHERE id = ?`. -/
def updateBookingStatus (st : Store) (bookingID : Nat) (status : BookingStatus) : Store :=
  { st with bookings := st.bookings.map fun b =>
      if b.id = bookingID then { b with status := status } else b }

/-- Booking creation of the simpler variant, `bookingService.Create`
(`booking_service.go:60`).  `today` stands for
`time.Now().Truncate(24*time.Hour)` in hours.  The fire-and-forget
confirmation email is omitted.  `Duration.Hours()/24` truncated by Go's
`int` conversion is `Int.div` of the hour difference by 24. -/
def create (st : Store) (userID : Nat) (bookingData : Booking) (today : Int) :
    Except ServiceError Unit × Store :=
  match getGame st bookingData.gameId with
  | none => (.error .gameNotFound, st)
  | some game =>
    if game.isActive = false then (.error .gameNotAvailable, st)
    else if bookingData.endDate < bookingData.startDate ∨ bookingData.startDate < today then
      (.error .bookingInvalidDate, st)
    else
      match checkAvailability st game.id with
      | none => (.error .gameNotFound, st)
      | some false => (.error .gameStockInsufficient, st)
      | some true =>
        let rentalDays := Int.tdiv (bookingData.endDate - bookingData.startDate) 24 + 1
        let totalRentalPrice := (rentalDays : ℚ) * game.rentalPricePerDay
        let totalAmount := totalRentalPrice + game.securityDeposit
        let newBooking := { bookingData with
          userId := userID
          rentalDays := rentalDays
          dailyPrice := game.rentalPricePerDay
          totalRentalPrice := totalRentalPrice
          securityDeposit := game.securityDeposit
          totalAmount := totalAmount
          status := .pendingPayment }
        match reserveStock st game.id with
        | .error e => (.error e, st)
        | .ok st1 => (.ok (), { st1 with bookings := st1.bookings ++ [newBooking] })

/-- Booking creation of the richer variant, `bookingService.CreateBooking`
(`booking_service.go:370`).  `hasConflict` is the answer of the external
collaborator `bookingRepo.CheckDateConflicts`, whose implementation is not
part of the source tree; it is passed in as an oracle. -/
def createBooking (st : Store) (userID : Nat) (bookingData : Booking) (today : Int)
    (hasConflict : Bool) : Except ServiceError Unit × Store :=
  match getUser st userID with
  | none => (.error .userNotFound, st)
  | some _user =>
    match getGame st bookingData.gameId with
    | none => (.error .gameNotFound, st)
    | some game =>
      if game.isActive = false ∨ game.approvalStatus ≠ .approved then
        (.error .bookingGameNotActive, st)
      else if bookingData.endDate < bookingData.startDate ∨ bookingData.startDate < today then
        (.error .bookingInvalidDate, st)
      else if hasConflict then (.error .bookingDateConflict, st)
      else
        match checkAvailabilityQty st game.id 1 with
        | none => (.error .gameNotFound, st)
        | some false => (.error .gameStockInsufficient, st)
        | some true =>
          let rentalDays := Int.tdiv (bookingData.endDate - bookingData.startDate) 24 + 1
          let totalRentalPrice := (rentalDays : ℚ) * game.rentalPricePerDay
          let totalAmount := totalRentalPrice + game.securityDeposit
          let newBooking := { bookingData with
            userId := userID
            partnerId := game.partnerId
            rentalDays := rentalDays
            dailyPrice := game.rentalPricePerDay
            totalRentalPrice := totalRentalPrice
            securityDeposit := game.securityDeposit
            totalAmount := totalAmount
            status := .pendingPayment }
          match reserveStockQty st game.id 1 with
          | .error e => (.error e, st)
          | .ok st1 => (.ok (), { st1 with bookings := st1.bookings ++ [newBooking] })

/-- Renter-facing cancellation, `bookingService.CancelBooking`
(`booking_service.go:452`): ownership check, then the state guard
permitting only `pending_payment` and `confirmed`, then release of the
reserved stock and the status update. -/
def cancelBooking (st : Store) (userID : Nat) (bookingID : Nat) :
    Except ServiceError Unit × Store :=
  match getBooking st bookingID with
  | none => (.error .bookingNotFound, st)
  | some booking =>
    if booking.userId ≠ userID then (.error .bookingNotOwned, st)
    else if booking.status ≠ .pendingPayment ∧ booking.status ≠ .confirmed then
      (.error .bookingCannotCancel, st)
    else
      match releaseStockQty st booking.gameId 1 with
      | .error e => (.error e, st)
      | .ok st1 => (.ok (), updateBookingStatus st1 bookingID .cancelled)

/-- System-invoked payment confirmation, `bookingService.ConfirmPayment`
(`booking_service.go:553`): permitted only from `pending_payment`. -/
def confirmPayment (st : Store) (bookingID : Nat) : Except ServiceError Unit × Store :=
  match getBooking st bookingID with
  | none => (.error .bookingNotFound, st)
  | some booking =>
    if booking.status ≠ .pendingPayment then (.error .bookingNotPendingPayment, st)
    else (.ok (), updateBookingStatus st bookingID .confirmed)

/-- System-invoked payment failure, `bookingService.FailPayment`
(`booking_service.go:566`): looks the booking up, releases the reserved
stock and updates the status to `cancelled`.  The source contains no
check of the booking's current status. -/
def failPayment (st : Store) (bookingID : Nat) : Except ServiceError Unit × Store :=
  match getBooking st bookingID with
  | none => (.error .bookingNotFound, st)
  | some booking =>
    match releaseStockQty st booking.gameId 1 with
    | .error e => (.error e, st)
    | .ok st1 => (.ok (), updateBookingStatus st1 bookingID .cancelled)

/-- Role gate `bookingService.canManageBookings` (`booking_service.go:582`). -/
def canManageBookings (role : UserRole) : Bool :=
  role == .admin || role == .superAdmin

/-- Admin override `bookingService.ForceUpdateBookingStatus`
(`booking_service.go:544`): after the role gate, writes any status
unconditionally. -/
def forceUpdateBookingStatus (st : Store) (requestorRole : UserRole) (bookingID : Nat)
    (status : BookingStatus) : Except ServiceError Unit × Store :=
  if canManageBookings requestorRole = false then (.error .insufficientPermission, st)
  else (.ok (), updateBookingStatus st bookingID status)

/-- Repository write `paymentRepository.MarkAsPaid` (`payment_repo.go:88`):
sets status, provider payment id and method of the addressed row (the
`paid_at` timestamp column is not modelled). -/
def markAsPaid (st : Store) (paymentID : Nat) (providerPaymentID : String)
    (paymentMethod : String) : Store :=
  { st with payments := st.payments.map fun p =>
      if p.id = paymentID then
        { p with status := .paid, providerPaymentId := some providerPaymentID,
                 paymentMethod := some paymentMethod }
      else p }

/-- Repository write `paymentRepository.MarkAsFailed` (`payment_repo.go:97`)
(the `failed_at` timestamp column is not modelled). -/
def markAsFailed (st : Store) (paymentID : Nat) (failureReason : String) : Store :=
  { st with payments := st.payments.map fun p =>
      if p.id = paymentID then
        { p with status := .failed, failureReason := some failureReason }
      else p }

/-- Repository write `paymentRepository.Update` (gorm `Save` by primary
key). -/
def updatePayment (st : Store) (payment : Payment) : Store :=
  { st with payments := st.payments.map fun p =>
      if p.id = payment.id then payment else p }

/-- Payment creation, `paymentService.CreatePayment`
(`payment_service.go:58`).  `gatewayTx` is the outcome of the external
`paymentGateway.CreateCharge` call: `some txID` on success, `none` on a
gateway transport error.  `newPaymentID` stands for the id the database
assigns to the inserted row.  On a gateway error the Go code returns the
created payment together with a non-nil error; the embedding keeps the
created row in the state and reports the error. -/
def createPayment (st : Store) (userID : Nat) (bookingID : Nat)
    (provider : PaymentProvider) (gatewayTx : Option String) (newPaymentID : Nat) :
    Except ServiceError Payment × Store :=
  match getBooking st bookingID with
  | none => (.error .bookingNotFound, st)
  | some booking =>
    if booking.userId ≠ userID then (.error .bookingNotOwned, st)
    else if booking.status ≠ .pendingPayment then (.error .bookingNotPendingPayment, st)
    else
      match getPaymentByBookingID st bookingID with
      | some existingPayment => (.ok existingPayment, st)
      | none =>
        let payment : Payment :=
          { id := newPaymentID, bookingId := bookingID, provider := provider,
            providerPaymentId := none, amount := booking.totalAmount,
            status := .pending, paymentMethod := none, failureReason := none }
        let st1 := { st with payments := st.payments ++ [payment] }
        match gatewayTx with
        | none => (.error .paymentGatewayError, st1)
        | some txID =>
          let payment1 := { payment with providerPaymentId := some txID }
          (.ok payment1, updatePayment st1 payment1)

/-- Payment outcome adapter, `paymentService.ProcessWebhook`
(`payment_service.go:161`): looks the payment up by provider transaction
id, short-circuits when the row is already in the event's terminal
status, otherwise marks the row and invokes the booking transition. -/
def processWebhook (st : Store) (providerPaymentID : String) (status : String)
    (paymentMethod : String) (failureReason : Option String) :
    Except ServiceError Unit × Store :=
  match getPaymentByProviderPaymentID st providerPaymentID with
  | none => (.error .paymentNotFound, st)
  | some payment =>
    if status = "paid" ∨ status = "success" ∨ status = "completed" then
      if payment.status = .paid then (.ok (), st)
      else
        let st1 := markAsPaid st payment.id providerPaymentID paymentMethod
        confirmPayment st1 payment.bookingId
    else if status = "failed" ∨ status = "error" ∨ status = "cancelled" then
      if payment.status = .failed then (.ok (), st)
      else
        let reason := match failureReason with
          | none => "Payment failed"
          | some r => r
        let st1 := markAsFailed st payment.id reason
        failPayment st1 payment.bookingId
    else (.error (.unknownPaymentStatus status), st)

/-- Role gate `userService.canManageUsers` (`part_019:263`): admin and
above. -/
def canManageUsers (role : UserRole) : Bool :=
  role == .admin || role == .superAdmin

/-- Repository write `userRepository.UpdateRole`. -/
def updateRole (st : Store) (userID : Nat) (newRole : UserRole) : Store :=
  { st with users := st.users.map fun u =>
      if u.id = userID then { u with role := newRole } else u }

/-- Role management, `userService.UpdateUserRole` (`part_019:220`): gated
by `canManageUsers` only, then writes the requested role. -/
def updateUserRole (st : Store) (requestorRole : UserRole) (userID : Nat)
    (newRole : UserRole) : Except ServiceError Unit × Store :=
  if canManageUsers requestorRole = false then (.error .insufficientPermission, st)
  else (.ok (), updateRole st userID newRole)

/-- User deletion, `userService.DeleteUser` (`part_019:240`): requires the
`super_admin` role, forbids self-deletion and deleting a super admin. -/
def deleteUser (st : Store) (requestorID : Nat) (requestorRole : UserRole)
    (targetUserID : Nat) : Except ServiceError Unit × Store :=
  if requestorRole ≠ .superAdmin then (.error .insufficientPermission, st)
  else if requestorID = targetUserID then (.error .cannotDeleteSelf, st)
  else
    match getUser st targetUserID with
    | none => (.error .userNotFound, st)
    | some targetUser =>
      if targetUser.role = .superAdmin then (.error .cannotDeleteSuperAdmin, st)
      else (.ok (), { st with users := st.users.filter fun u => u.id ≠ targetUserID })

/-- Admin promotion of the other user-service variant,
`userService.PromoteToAdmin` (`part_018`): requires `super_admin`. -/
def promoteToAdmin (st : Store) (requestorRole : UserRole) (userID : Nat) :
    Except ServiceError Unit × Store :=
  if requestorRole ≠ .superAdmin then (.error .insufficientPermission, st)
  else (.ok (), updateRole st userID .admin)

/-- One call of the Inventory Ledger: either `ReserveStock` or
`ReleaseStock` of `game_repo.go` against some item. -/
inductive StockOp where
  | reserve (gameID : Nat)
  | release (gameID : Nat)
deriving Repr, DecidableEq

/-- State reached by one ledger call (the error component of both calls is
always `nil`, see `reserveStock` / `releaseStock`). -/
def applyStockOp (st : Store) : StockOp → Store
  | .reserve gameID => reserveStockUpd st gameID
  | .release gameID => releaseStockUpd st gameID

/-- State reached by a sequence of ledger calls. -/
def applyStockOps (st : Store) (ops : List StockOp) : Store :=
  ops.foldl applyStockOp st

/-- Inventory Ledger invariant: every item satisfies
`0 ≤ available_stock ≤ stock`. -/
def stockInvariant (st : Store) : Prop :=
  ∀ g ∈ st.games, 0 ≤ g.availableStock ∧ g.availableStock ≤ g.stock

/-! Concrete fixtures used by the witness and counterexample theorems.
Dates are encoded as hours; in the fixtures the epoch is 2025-11-10, so
`startDate = 0` stands for 2025-11-10 and `endDate = 48` for 2025-11-12. -/

/-- An approved, active item whose stock is fully reserved. -/
def zeroStockGame : Game :=
  ⟨1, 2, 2, 0, 10000, 5000, true, .approved⟩

/-- Store holding only `zeroStockGame`. -/
def zeroStockStore : Store := ⟨[zeroStockGame], [], [], []⟩

/-- The same item with one unit still available. -/
def oneStockGame : Game := { zeroStockGame with availableStock := 1 }

/-- Store holding only `oneStockGame`. -/
def oneStockStore : Store := ⟨[oneStockGame], [], [], []⟩

/-- Booking request against item 1 for 2025-11-10 .. 2025-11-12. -/
def c1BookingInput : Booking :=
  ⟨0, 0, 1, 0, 0, 48, 0, 0, 0, 0, 0, .pendingPayment, none⟩

/-- Two items with valid ledger fields. -/
def c2Store : Store :=
  ⟨[⟨1, 2, 3, 1, 10, 5, true, .approved⟩, ⟨2, 2, 1, 1, 10, 5, true, .approved⟩],
   [], [], []⟩

/-- A sample interleaving of ledger calls, including over-reserving and
over-releasing. -/
def c2Ops : List StockOp :=
  [.reserve 1, .reserve 1, .release 2, .release 2, .reserve 2, .release 1]

/-- An item backing the webhook fixtures. -/
def c3Game : Game := ⟨1, 2, 3, 2, 10000, 5000, true, .approved⟩

/-- A booking awaiting payment. -/
def c3Booking : Booking :=
  ⟨7, 5, 1, 2, 0, 48, 3, 10000, 30000, 5000, 35000, .pendingPayment, none⟩

/-- The pending payment row of `c3Booking`, known to the gateway as
`tx1`. -/
def c3Payment : Payment :=
  ⟨1, 7, .midtrans, some "tx1", 35000, .pending, none, none⟩

/-- Store before any webhook delivery. -/
def c3Store : Store := ⟨[c3Game], [c3Booking], [c3Payment], []⟩

/-- The payment row after a processed "paid" outcome. -/
def c3PaidPayment : Payment := { c3Payment with status := .paid }

/-- The payment row after a processed "failed" outcome. -/
def c3FailedPayment : Payment := { c3Payment with status := .failed }

/-- Store in which the "paid" outcome has already been applied. -/
def c3PaidStore : Store :=
  ⟨[c3Game], [{ c3Booking with status := .confirmed }], [c3PaidPayment], []⟩

/-- Store in which the "failed" outcome has already been applied. -/
def c3FailedStore : Store :=
  ⟨[c3Game], [{ c3Booking with status := .cancelled }], [c3FailedPayment], []⟩

/-- A booking already in the terminal state `completed`. -/
def c4CompletedBooking : Booking :=
  ⟨7, 5, 1, 2, 0, 48, 3, 10000, 30000, 5000, 35000, .completed, none⟩

/-- Store holding the completed booking and its item (one of whose three
units is still out, reflecting nothing: stock was already released by
`ConfirmReturn`). -/
def c4Store : Store := ⟨[c3Game], [c4CompletedBooking], [], []⟩

/-- The item of the pricing scenario: 10000 per day, 5000 deposit. -/
def c5Game : Game := ⟨1, 2, 3, 3, 10000, 5000, true, .approved⟩

/-- Store for the pricing scenario. -/
def c5Store : Store := ⟨[c5Game], [], [], [⟨1, .customer, true⟩]⟩

/-- Booking request for 2025-11-10 .. 2025-11-12 against `c5Game`. -/
def c5Input : Booking :=
  ⟨0, 0, 1, 0, 0, 48, 0, 0, 0, 0, 0, .pendingPayment, none⟩

/-- The booking row the pricing scenario must produce. -/
def c5Expected : Booking :=
  ⟨0, 1, 1, 2, 0, 48, 3, 10000, 30000, 5000, 35000, .pendingPayment, none⟩

/-- An item that is approved but switched inactive. -/
def c6InactiveGame : Game := ⟨1, 2, 3, 3, 10000, 5000, false, .approved⟩

/-- Store whose only item is inactive. -/
def c6Store : Store := ⟨[c6InactiveGame], [], [], [⟨1, .customer, true⟩]⟩

/-- Booking request with `endDate < startDate` (start 2025-11-12, end
2025-11-10). -/
def c6Input : Booking :=
  ⟨0, 0, 1, 0, 48, 0, 0, 0, 0, 0, 0, .pendingPayment, none⟩

/-- Store with an active approved item for the date-validation witness. -/
def c6ActiveStore : Store :=
  ⟨[{ c6InactiveGame with isActive := true }], [], [], [⟨1, .customer, true⟩]⟩

/-- A booking in state `active` (cancellation must be rejected). -/
def c7ActiveBooking : Booking :=
  ⟨7, 5, 1, 2, 0, 48, 3, 10000, 30000, 5000, 35000, .active, none⟩

/-- A booking in state `pending_payment` (cancellation must succeed). -/
def c7PendingBooking : Booking := { c7ActiveBooking with id := 8, status := .pendingPayment }

/-- Store holding both cancellation fixtures and their item. -/
def c7Store : Store := ⟨[c3Game], [c7ActiveBooking, c7PendingBooking], [], []⟩

/-- A booking awaiting payment confirmation. -/
def c8PendingBooking : Booking :=
  ⟨7, 5, 1, 2, 0, 48, 3, 10000, 30000, 5000, 35000, .pendingPayment, none⟩

/-- A booking already confirmed (a duplicate webhook must not advance
it). -/
def c8ConfirmedBooking : Booking := { c8PendingBooking with id := 8, status := .confirmed }

/-- Store holding both payment-confirmation fixtures. -/
def c8Store : Store := ⟨[c3Game], [c8PendingBooking, c8ConfirmedBooking], [], []⟩

/-- Store with one ordinary customer, used by the authorization
theorems. -/
def c9Store : Store := ⟨[], [], [], [⟨5, .customer, true⟩]⟩

/-- A booking that has progressed past `pending_payment`. -/
def c10ConfirmedBooking : Booking :=
  ⟨1, 9, 1, 2, 0, 48, 3, 10000, 30000, 5000, 35000, .confirmed, none⟩

/-- The already-settled payment row of `c10ConfirmedBooking`. -/
def c10Payment : Payment :=
  ⟨1, 1, .midtrans, some "tx", 35000, .paid, none, none⟩

/-- Store with a confirmed booking that already has a payment row. -/
def c10Store : Store := ⟨[], [c10ConfirmedBooking], [c10Payment], []⟩

/-- Store with the same booking still in `pending_payment`. -/
def c10PendingStore : Store :=
  ⟨[], [{ c10ConfirmedBooking with status := .pendingPayment }], [c10Payment], []⟩

/-! Helper lemmas. -/

/-- A `find?` over a mapped list with a predicate the mapping cannot
change is the mapped `find?`. -/
theorem find?_map_pred_invariant {α : Type} (f : α → α) (p : α → Bool)
    (hf : ∀ a, p (f a) = p a) (l : List α) :
    (l.map f).find? p = (l.find? p).map f := by
  rw [List.find?_map]
  have hpf : p ∘ f = p := funext hf
  rw [hpf]

/-- Reading an item after `ReserveStock` yields the conditional
decrement of the previously read row. -/
theorem getGame_reserveStockUpd (st : Store) (gameID : Nat) :
    getGame (reserveStockUpd st gameID) gameID
      = (getGame st gameID).map fun g =>
          if g.id = gameID ∧ 0 < g.availableStock then
            { g with availableStock := g.availableStock - 1 }
          else g := by
  unfold getGame reserveStockUpd
  apply find?_map_pred_invariant
  intro a
  by_cases h : a.id = gameID ∧ 0 < a.availableStock <;> simp [h]

/-- One Inventory Ledger call keeps `0 ≤ available_stock ≤ stock` for
every item. -/
theorem stock_op_preserves_invariant (st : Store) (op : StockOp)
    (h : stockInvariant st) : stockInvariant (applyStockOp st op) := by
  cases op with
  | reserve gameID =>
    intro g' hg'
    simp only [applyStockOp, reserveStockUpd, List.mem_map] at hg'
    obtain ⟨g, hmem, rfl⟩ := hg'
    have hgi := h g hmem
    by_cases hc : g.id = gameID ∧ 0 < g.availableStock
    · simp only [if_pos hc]
      refine ⟨?_, ?_⟩
      · show (0 : ℤ) ≤ g.availableStock - 1
        omega
      · show g.availableStock - 1 ≤ g.stock
        omega
    · simp only [if_neg hc]
      exact hgi
  | release gameID =>
    intro g' hg'
    simp only [applyStockOp, releaseStockUpd, List.mem_map] at hg'
    obtain ⟨g, hmem, rfl⟩ := hg'
    have hgi := h g hmem
    by_cases hc : g.id = gameID
    · simp only [if_pos hc]
      refine ⟨?_, ?_⟩
      · show (0 : ℤ) ≤ min (g.availableStock + 1) g.stock
        omega
      · show min (g.availableStock + 1) g.stock ≤ g.stock
        omega
    · simp only [if_neg hc]
      exact hgi

/-- C1 (counterexample): on an item with `available_stock = 0`,
`GameRepository.ReserveStock` does not return the stock-insufficient
error: gorm's conditional `UPDATE` matches zero rows, leaves the store
unchanged and reports success. -/
theorem reserveStock_zero_stock_counterexample :
    reserveStock zeroStockStore 1 = .ok zeroStockStore
    ∧ (getGame zeroStockStore 1).map Game.availableStock = some 0
    ∧ reserveStock zeroStockStore 1 ≠ .error .gameStockInsufficient := by
  decide

/-- C1 (amended): `ReserveStock` always reports success; on an item with
`available_stock = 0` it leaves the ledger row unchanged (never driving
it negative), on an item with `available_stock > 0` it decrements by
exactly 1, and the `StockInsufficient` error of the claim is produced by
the `bookingService.Create` pre-check, which rejects a zero-stock item
before reserving. -/
theorem reserveStock_conditional_decrement (st : Store) (gameID : Nat) (g : Game)
    (hg : getGame st gameID = some g) :
    reserveStock st gameID = .ok (reserveStockUpd st gameID)
    ∧ (g.availableStock ≤ 0 → getGame (reserveStockUpd st gameID) gameID = some g)
    ∧ (0 < g.availableStock →
        getGame (reserveStockUpd st gameID) gameID
          = some { g with availableStock := g.availableStock - 1 })
    ∧ (g.availableStock = 0 → ∀ (userID : Nat) (bookingData : Booking) (today : Int),
        bookingData.gameId = gameID → g.isActive = true →
        bookingData.startDate ≤ bookingData.endDate → today ≤ bookingData.startDate →
        create st userID bookingData today = (.error .gameStockInsufficient, st)) := by
  have hid : g.id = gameID := by
    have := List.find?_some hg
    simpa using this
  refine ⟨rfl, ?_, ?_, ?_⟩
  · intro h0
    rw [getGame_reserveStockUpd, hg]
    simp only [Option.map_some']
    rw [if_neg (by omega)]
  · intro h0
    rw [getGame_reserveStockUpd, hg]
    simp only [Option.map_some']
    rw [if_pos ⟨hid, h0⟩]
  · intro h0 userID bookingData today hbd hact hse hts
    have hca : checkAvailability st g.id = some false := by
      unfold checkAvailability
      rw [hid, hg]
      simp [h0]
    unfold create
    rw [hbd, hg]
    dsimp only
    rw [if_neg (by simp [hact]), if_neg (by omega), hca]

/-- C1 (witness): the amended claim at the fixtures — the zero-stock item
stays untouched, the one-unit item drops to zero, and the creation flow
on the zero-stock item fails with the stock-insufficient error. -/
theorem reserveStock_conditional_decrement_witness :
    getGame (reserveStockUpd zeroStockStore 1) 1 = some zeroStockGame
    ∧ getGame (reserveStockUpd oneStockStore 1) 1
        = some { oneStockGame with availableStock := 0 }
    ∧ create zeroStockStore 3 c1BookingInput 0
        = (.error .gameStockInsufficient, zeroStockStore) := by
  refine ⟨?_, ?_, ?_⟩
  · exact (reserveStock_conditional_decrement zeroStockStore 1 zeroStockGame
      (by decide)).2.1 (by decide)
  · have h := (reserveStock_conditional_decrement oneStockStore 1 oneStockGame
      (by decide)).2.2.1 (by decide)
    exact h.trans (by decide)
  · exact (reserveStock_conditional_decrement zeroStockStore 1 zeroStockGame
      (by decide)).2.2.2 (by decide) 3 c1BookingInput 0 (by decide) (by decide)
      (by decide) (by decide)

/-- C2: every sequence of Inventory Ledger reserve/release calls
preserves `0 ≤ available_stock ≤ stock` for every item: reserve
decrements only rows with positive availability, release increments
clamped by the total stock. -/
theorem stockInvariant_preserved (st : Store) (ops : List StockOp)
    (h : stockInvariant st) : stockInvariant (applyStockOps st ops) := by
  induction ops generalizing st with
  | nil => exact h
  | cons op ops ih => exact ih _ (stock_op_preserves_invariant st op h)

/-- C2 (witness): the invariant holds after a concrete interleaving of
over-reserving and over-releasing calls on a two-item store. -/
theorem stockInvariant_preserved_witness :
    stockInvariant c2Store ∧ stockInvariant (applyStockOps c2Store c2Ops) := by
  constructor
  · unfold stockInvariant
    decide
  · exact stockInvariant_preserved c2Store c2Ops (by unfold stockInvariant; decide)

/-- C4 (evaluation at the failing input): `FailPayment` on a booking
whose status is the terminal `completed` succeeds, releases the item's
stock once more and rewrites the status to `cancelled` — the source has
no guard restricting `FailPayment` to non-terminal states. -/
theorem failPayment_cancels_completed_booking :
    c4CompletedBooking.status = .completed
    ∧ failPayment c4Store 7
        = (.ok (), ⟨[{ c3Game with availableStock := 3 }],
                    [{ c4CompletedBooking with status := .cancelled }], [], []⟩) := by
  decide

/-- C6 (counterexample): with an inactive item and `endDate < startDate`,
`CreateBooking` fails with the game-not-active error, not with the
invalid-date error — the activity check precedes the date check. -/
theorem createBooking_inactive_game_counterexample :
    c6Input.endDate < c6Input.startDate
    ∧ createBooking c6Store 1 c6Input 0 false = (.error .bookingGameNotActive, c6Store)
    ∧ (createBooking c6Store 1 c6Input 0 false).1 ≠ .error .bookingInvalidDate := by
  decide

/-- C6 (amended): provided the renter exists and the item is active and
approved, `CreateBooking` with `endDate < startDate` always fails with
the invalid-date error, regardless of the requested dates' other
properties, the conflict oracle, the stock level and the note. -/
theorem createBooking_invalid_date_range (st : Store) (userID : Nat)
    (bookingData : Booking) (today : Int) (hasConflict : Bool) (u : User) (g : Game)
    (hu : getUser st userID = some u) (hg : getGame st bookingData.gameId = some g)
    (hact : g.isActive = true) (happ : g.approvalStatus = .approved)
    (hdate : bookingData.endDate < bookingData.startDate) :
    createBooking st userID bookingData today hasConflict
      = (.error .bookingInvalidDate, st) := by
  unfold createBooking
  rw [hu]
  dsimp only
  rw [hg]
  dsimp only
  rw [if_neg (by simp [hact, happ]), if_pos (Or.inl hdate)]

/-- C6 (witness): the amended claim on a store whose item is active and
approved. -/
theorem createBooking_invalid_date_range_witness :
    createBooking c6ActiveStore 1 c6Input 0 false
      = (.error .bookingInvalidDate, c6ActiveStore) :=
  createBooking_invalid_date_range c6ActiveStore 1 c6Input 0 false
    ⟨1, .customer, true⟩ { c6InactiveGame with isActive := true }
    (by decide) (by decide) (by decide) (by decide) (by decide)

/-- C7: for the booking's renter, `CancelBooking` rejects every state
other than `pending_payment` and `confirmed` with the cannot-cancel
error, leaving the store untouched; from `pending_payment` or
`confirmed` it releases one unit of the item's stock (clamped at the
total) and sets the status to `cancelled`. -/
theorem cancelBooking_state_guard (st : Store) (userID bookingID : Nat) (b : Booking)
    (hb : getBooking st bookingID = some b) (hown : b.userId = userID) :
    (b.status ≠ .pendingPayment → b.status ≠ .confirmed →
       cancelBooking st userID bookingID = (.error .bookingCannotCancel, st))
    ∧ (∀ g, getGame st b.gameId = some g →
       (b.status = .pendingPayment ∨ b.status = .confirmed) →
       cancelBooking st userID bookingID
         = (.ok (), updateBookingStatus
             (updateAvailableStock st b.gameId
               (if g.stock < g.availableStock + 1 then g.stock else g.availableStock + 1))
             bookingID .cancelled)) := by
  constructor
  · intro h1 h2
    unfold cancelBooking
    rw [hb]
    dsimp only
    rw [if_neg (by simp [hown]), if_pos ⟨h1, h2⟩]
  · intro g hg hstat
    have hrel : releaseStockQty st b.gameId 1
        = .ok (updateAvailableStock st b.gameId
            (if g.stock < g.availableStock + 1 then g.stock else g.availableStock + 1)) := by
      unfold releaseStockQty
      rw [hg]
    unfold cancelBooking
    rw [hb]
    dsimp only
    rw [if_neg (by simp [hown]),
        if_neg (by rcases hstat with h | h <;> simp [h]), hrel]

/-- C7 (witness): cancelling an `active` booking fails and changes
nothing; cancelling a `pending_payment` booking succeeds, releases one
unit and marks it `cancelled`. -/
theorem cancelBooking_state_guard_witness :
    cancelBooking c7Store 5 7 = (.error .bookingCannotCancel, c7Store)
    ∧ cancelBooking c7Store 5 8
        = (.ok (), updateBookingStatus
            (updateAvailableStock c7Store 1
              (if c3Game.stock < c3Game.availableStock + 1 then c3Game.stock
               else c3Game.availableStock + 1))
            8 .cancelled) := by
  constructor
  · exact (cancelBooking_state_guard c7Store 5 7 c7ActiveBooking
      (by decide) (by decide)).1 (by decide) (by decide)
  · exact (cancelBooking_state_guard c7Store 5 8 c7PendingBooking
      (by decide) (by decide)).2 c3Game (by decide) (Or.inl rfl)

/-- C8: `ConfirmPayment` moves a `pending_payment` booking to
`confirmed`; on a booking in any other state it returns the
not-in-pending-payment error and leaves the store untouched — it never
silently succeeds. -/
theorem confirmPayment_state_guard (st : Store) (bookingID : Nat) (b : Booking)
    (hb : getBooking st bookingID = some b) :
    (b.status = .pendingPayment →
       confirmPayment st bookingID = (.ok (), updateBookingStatus st bookingID .confirmed))
    ∧ (b.status ≠ .pendingPayment →
       confirmPayment st bookingID = (.error .bookingNotPendingPayment, st)) := by
  constructor
  · intro h
    unfold confirmPayment
    rw [hb]
    dsimp only
    rw [if_neg (by simp [h])]
  · intro h
    unfold confirmPayment
    rw [hb]
    dsimp only
    rw [if_pos h]

/-- C8 (witness): the pending fixture is confirmed, the already-confirmed
fixture is rejected unchanged. -/
theorem confirmPayment_state_guard_witness :
    confirmPayment c8Store 7 = (.ok (), updateBookingStatus c8Store 7 .confirmed)
    ∧ confirmPayment c8Store 8 = (.error .bookingNotPendingPayment, c8Store) := by
  constructor
  · exact (confirmPayment_state_guard c8Store 7 c8PendingBooking (by decide)).1 rfl
  · exact (confirmPayment_state_guard c8Store 8 c8ConfirmedBooking (by decide)).2 (by decide)

/-- C9 (counterexample): a requestor whose role is `admin` (not
`super_admin`) succeeds in changing another user's role to `admin`
through `UpdateUserRole`, which is gated only by the admin-and-above
check. -/
theorem updateUserRole_admin_counterexample :
    updateUserRole c9Store .admin 5 .admin
      = (.ok (), { c9Store with users := [⟨5, .admin, true⟩] })
    ∧ (updateUserRole c9Store .admin 5 .admin).1 ≠ .error .insufficientPermission
    ∧ UserRole.admin ≠ UserRole.superAdmin := by
  decide

/-- C9 (amended): `DeleteUser` succeeds only for a `super_admin`
requestor (every other role receives the insufficient-permission error
and the store is untouched), and `PromoteToAdmin` of the other user
service variant likewise requires `super_admin`; `UpdateUserRole`,
however, is gated only by admin-and-above, so an `admin` requestor can
set any user's role, including to or from `admin`. -/
theorem userManagement_superAdmin_gate (st : Store) (requestorID targetUserID : Nat)
    (requestorRole : UserRole) (newRole : UserRole) :
    (requestorRole ≠ .superAdmin →
       deleteUser st requestorID requestorRole targetUserID
         = (.error .insufficientPermission, st))
    ∧ ((deleteUser st requestorID requestorRole targetUserID).1 = .ok () →
       requestorRole = .superAdmin)
    ∧ (requestorRole ≠ .superAdmin →
       promoteToAdmin st requestorRole targetUserID
         = (.error .insufficientPermission, st))
    ∧ (canManageUsers requestorRole = true →
       updateUserRole st requestorRole targetUserID newRole
         = (.ok (), updateRole st targetUserID newRole)) := by
  refine ⟨?_, ?_, ?_, ?_⟩
  · intro h
    unfold deleteUser
    rw [if_pos h]
  · intro h
    by_contra hne
    unfold deleteUser at h
    rw [if_pos hne] at h
    exact absurd h (by simp)
  · intro h
    unfold promoteToAdmin
    rw [if_pos h]
  · intro h
    unfold updateUserRole
    rw [if_neg (by simp [h])]

/-- C9 (witness): the gate at concrete inputs — an admin requestor is
rejected by `DeleteUser` and `PromoteToAdmin`, while the same admin
requestor succeeds through `UpdateUserRole`. -/
theorem userManagement_superAdmin_gate_witness :
    deleteUser c9Store 2 .admin 5 = (.error .insufficientPermission, c9Store)
    ∧ promoteToAdmin c9Store .admin 5 = (.error .insufficientPermission, c9Store)
    ∧ updateUserRole c9Store .admin 5 .admin = (.ok (), updateRole c9Store 5 .admin) := by
  refine ⟨?_, ?_, ?_⟩
  · exact (userManagement_superAdmin_gate c9Store 2 5 .admin .admin).1 (by decide)
  · exact (userManagement_superAdmin_gate c9Store 2 5 .admin .admin).2.2.1 (by decide)
  · exact (userManagement_superAdmin_gate c9Store 2 5 .admin .admin).2.2.2 (by decide)

/-- C10 (counterexample): the booking's owner calls `CreatePayment` on a
booking that already has a payment row but whose status is `confirmed`;
the call returns the not-in-pending-payment error instead of the
existing payment, because the status guard precedes the existing-payment
check. -/
theorem createPayment_nonpending_counterexample :
    getPaymentByBookingID c10Store 1 = some c10Payment
    ∧ createPayment c10Store 9 1 .midtrans (some "tx2") 99
        = (.error .bookingNotPendingPayment, c10Store) := by
  decide

/-- C10 (amended): for a booking in `pending_payment` that already has a
payment row, `CreatePayment` by the booking's owner returns that
existing payment with no error and leaves the store unchanged — no row
is created or modified, whatever the existing payment's status, so a
booking acquires at most one payment row. -/
theorem createPayment_returns_existing (st : Store) (userID bookingID : Nat)
    (b : Booking) (p : Payment) (provider : PaymentProvider)
    (gatewayTx : Option String) (newPaymentID : Nat)
    (hb : getBooking st bookingID = some b) (hown : b.userId = userID)
    (hst : b.status = .pendingPayment)
    (hp : getPaymentByBookingID st bookingID = some p) :
    createPayment st userID bookingID provider gatewayTx newPaymentID = (.ok p, st) := by
  unfold createPayment
  rw [hb]
  dsimp only
  rw [if_neg (by simp [hown]), if_neg (by simp [hst]), hp]

/-- C10 (witness): with the same booking still in `pending_payment`, a
repeated `CreatePayment` returns the already-stored payment row
unchanged. -/
theorem createPayment_returns_existing_witness :
    createPayment c10PendingStore 9 1 .midtrans (some "tx2") 99
      = (.ok c10Payment, c10PendingStore) :=
  createPayment_returns_existing c10PendingStore 9 1
    { c10ConfirmedBooking with status := .pendingPayment } c10Payment
    .midtrans (some "tx2") 99 (by decide) (by decide) (by decide) (by decide)

/-- C5: every booking that `CreateBooking` accepts is appended with
pricing frozen as `rentalDays = floor((endDate - startDate) in days) + 1`,
`totalRent = rentalDays * pricePerDay` and
`totalAmount = totalRent + deposit` (the date guard makes the difference
non-negative, so Go's truncating conversion coincides with the floor). -/
theorem createBooking_pricing (st : Store) (userID : Nat) (bookingData : Booking)
    (today : Int) (hasConflict : Bool) (g : Game)
    (hg : getGame st bookingData.gameId = some g)
    (hok : (createBooking st userID bookingData today hasConflict).1 = .ok ()) :
    (createBooking st userID bookingData today hasConflict).2.bookings
      = st.bookings ++ [{ bookingData with
          userId := userID
          partnerId := g.partnerId
          rentalDays := Int.fdiv (bookingData.endDate - bookingData.startDate) 24 + 1
          dailyPrice := g.rentalPricePerDay
          totalRentalPrice :=
            ((Int.fdiv (bookingData.endDate - bookingData.startDate) 24 + 1 : ℤ) : ℚ)
              * g.rentalPricePerDay
          securityDeposit := g.securityDeposit
          totalAmount :=
            ((Int.fdiv (bookingData.endDate - bookingData.startDate) 24 + 1 : ℤ) : ℚ)
              * g.rentalPricePerDay + g.securityDeposit
          status := .pendingPayment }] := by
  have hid : g.id = bookingData.gameId := by
    have := List.find?_some hg
    simpa using this
  unfold createBooking at hok ⊢
  cases hu : getUser st userID with
  | none =>
    rw [hu] at hok
    exact absurd hok (by simp)
  | some u =>
    rw [hu] at hok
    dsimp only at hok ⊢
    rw [hg] at hok ⊢
    dsimp only at hok ⊢
    by_cases h1 : g.isActive = false ∨ g.approvalStatus ≠ .approved
    · rw [if_pos h1] at hok
      exact absurd hok (by simp)
    · rw [if_neg h1] at hok ⊢
      by_cases h2 : bookingData.endDate < bookingData.startDate
        ∨ bookingData.startDate < today
      · rw [if_pos h2] at hok
        exact absurd hok (by simp)
      · rw [if_neg h2] at hok ⊢
        by_cases h3 : hasConflict
        · rw [if_pos h3] at hok
          exact absurd hok (by simp)
        · rw [if_neg h3] at hok ⊢
          have hgid : getGame st g.id = some g := by rw [hid]; exact hg
          have hca : checkAvailabilityQty st g.id 1
              = some (decide (1 ≤ g.availableStock)) := by
            unfold checkAvailabilityQty
            rw [hgid]
            rfl
          rw [hca] at hok ⊢
          by_cases h4 : 1 ≤ g.availableStock
          · rw [decide_eq_true h4] at hok ⊢
            dsimp only at hok ⊢
            have hres : reserveStockQty st g.id 1
                = .ok (updateAvailableStock st g.id (g.availableStock - 1)) := by
              unfold reserveStockQty
              rw [hgid]
              dsimp only
              rw [if_neg (by omega)]
            rw [hres]
            have htdiv : Int.tdiv (bookingData.endDate - bookingData.startDate) 24
                = Int.fdiv (bookingData.endDate - bookingData.startDate) 24 := by
              rw [Int.tdiv_eq_ediv (by omega) (by norm_num),
                  Int.fdiv_eq_ediv _ (by norm_num)]
            dsimp only
            rw [htdiv]
            rfl
          · rw [decide_eq_false (by omega)] at hok
            exact absurd hok (by simp)

/-- C5 (witness): the spec's concrete scenario — two days apart
(2025-11-10 to 2025-11-12, 48 hours) at 10000 per day with deposit 5000
freezes `rentalDays = 3`, `totalRent = 30000`, `totalAmount = 35000`. -/
theorem createBooking_pricing_witness :
    (createBooking c5Store 1 c5Input 0 false).1 = .ok ()
    ∧ (createBooking c5Store 1 c5Input 0 false).2.bookings = [c5Expected]
    ∧ c5Expected.rentalDays = 3
    ∧ c5Expected.totalRentalPrice = 30000
    ∧ c5Expected.totalAmount = 35000 := by
  refine ⟨by decide, ?_, by decide, by decide, by decide⟩
  have h := createBooking_pricing c5Store 1 c5Input 0 false c5Game (by decide) (by decide)
  rw [h]
  have hdays : (c5Input.endDate - c5Input.startDate).fdiv 24 + 1 = 3 := by decide
  rw [hdays]
  simp only [c5Store, c5Input, c5Game, c5Expected, List.nil_append, List.cons.injEq,
    and_true, Booking.mk.injEq]
  norm_num

/-- Walking a list of payments whose ids are distinct: marking the row
found by provider transaction id as paid moves `find?` to the marked
row. -/
theorem find?_payments_after_markPaid (ps : List Payment) (p : Payment) (txn m : String)
    (hnd : (ps.map Payment.id).Nodup)
    (hp : ps.find? (fun q => q.providerPaymentId == some txn) = some p) :
    (ps.map fun q =>
        if q.id = p.id then
          { q with status := .paid, providerPaymentId := some txn,
                   paymentMethod := some m }
        else q).find? (fun q => q.providerPaymentId == some txn)
      = some { p with status := .paid, providerPaymentId := some txn,
                      paymentMethod := some m } := by
  induction ps with
  | nil => simp at hp
  | cons a ps ih =>
    rw [List.map_cons] at hnd ⊢
    by_cases ha : (a.providerPaymentId == some txn) = true
    · have hpa : a = p := by
        rw [@List.find?_cons_of_pos _ (fun q => q.providerPaymentId == some txn) a ps ha] at hp
        exact Option.some.inj hp
      subst hpa
      rw [if_pos rfl]
      apply List.find?_cons_of_pos
      simp
    · have hp' : ps.find? (fun q => q.providerPaymentId == some txn) = some p := by
        rwa [@List.find?_cons_of_neg _ (fun q => q.providerPaymentId == some txn) a ps ha] at hp
      have hmem : p ∈ ps := List.mem_of_find?_eq_some hp'
      have hane : ¬a.id = p.id := by
        intro hEq
        have : a.id ∈ ps.map Payment.id := hEq ▸ List.mem_map_of_mem Payment.id hmem
        exact (List.nodup_cons.mp hnd).1 this
      rw [if_neg hane,
        @List.find?_cons_of_neg _ (fun q => q.providerPaymentId == some txn) a _ ha]
      exact ih (List.nodup_cons.mp hnd).2 hp'

/-- A booking transition touches only the bookings table: the payments of
the store after `ConfirmPayment` are unchanged. -/
theorem confirmPayment_preserves_payments (st : Store) (bookingID : Nat) :
    ((confirmPayment st bookingID).2).payments = st.payments := by
  unfold confirmPayment
  cases getBooking st bookingID with
  | none => rfl
  | some b =>
    dsimp only
    split <;> rfl

/-- C3: webhook processing is idempotent — a "paid" event whose payment
row is already `paid` (or a "failed" event whose row is already
`failed`) returns success without touching the store, and delivering the
same "paid" event twice (under distinct payment ids, the database's
primary-key constraint) changes the store exactly as one delivery does. -/
theorem processWebhook_idempotent (st : Store) (txn m : String) (r : Option String)
    (p : Payment) (hp : getPaymentByProviderPaymentID st txn = some p) :
    (p.status = .paid → processWebhook st txn "paid" m r = (.ok (), st))
    ∧ (p.status = .failed → processWebhook st txn "failed" m r = (.ok (), st))
    ∧ ((st.payments.map Payment.id).Nodup →
       processWebhook (processWebhook st txn "paid" m r).2 txn "paid" m r
         = (.ok (), (processWebhook st txn "paid" m r).2)) := by
  have hpaid : ∀ (st' : Store) (p' : Payment),
      getPaymentByProviderPaymentID st' txn = some p' → p'.status = .paid →
      processWebhook st' txn "paid" m r = (.ok (), st') := by
    intro st' p' hp' h
    unfold processWebhook
    rw [hp']
    dsimp only
    rw [if_pos (Or.inl rfl), if_pos h]
  refine ⟨hpaid st p hp, ?_, ?_⟩
  · intro h
    unfold processWebhook
    rw [hp]
    dsimp only
    rw [if_neg (by simp), if_pos (Or.inl rfl), if_pos h]
  · intro hnd
    by_cases hps : p.status = .paid
    · rw [hpaid st p hp hps]
      exact hpaid st p hp hps
    · have hfirst : (processWebhook st txn "paid" m r).2
          = (confirmPayment (markAsPaid st p.id txn m) p.bookingId).2 := by
        unfold processWebhook
        rw [hp]
        dsimp only
        rw [if_pos (Or.inl rfl), if_neg hps]
      have hpay2 : (processWebhook st txn "paid" m r).2.payments
          = st.payments.map fun q =>
              if q.id = p.id then
                { q with status := .paid, providerPaymentId := some txn,
                         paymentMethod := some m }
              else q := by
        rw [hfirst, confirmPayment_preserves_payments]
        rfl
      have hlook : getPaymentByProviderPaymentID (processWebhook st txn "paid" m r).2 txn
          = some { p with status := .paid, providerPaymentId := some txn,
                          paymentMethod := some m } := by
        unfold getPaymentByProviderPaymentID
        rw [hpay2]
        exact find?_payments_after_markPaid st.payments p txn m hnd hp
      exact hpaid _ _ hlook rfl

/-- C3 (witness): on the concrete fixtures, replaying a "paid" delivery
leaves the post-delivery store fixed and returns success, and stores in
which the payment is already `paid` (resp. `failed`) are returned
untouched. -/
theorem processWebhook_idempotent_witness :
    processWebhook (processWebhook c3Store "tx1" "paid" "bank_transfer" none).2
        "tx1" "paid" "bank_transfer" none
      = (.ok (), (processWebhook c3Store "tx1" "paid" "bank_transfer" none).2)
    ∧ processWebhook c3PaidStore "tx1" "paid" "bank_transfer" none
        = (.ok (), c3PaidStore)
    ∧ processWebhook c3FailedStore "tx1" "failed" "bank_transfer" none
        = (.ok (), c3FailedStore) := by
  refine ⟨?_, ?_, ?_⟩
  · exact (processWebhook_idempotent c3Store "tx1" "bank_transfer" none c3Payment
      (by decide)).2.2 (by decide)
  · exact (processWebhook_idempotent c3PaidStore "tx1" "bank_transfer" none c3PaidPayment
      (by decide)).1 (by decide)
  · exact (processWebhook_idempotent c3FailedStore "tx1" "bank_transfer" none
      c3FailedPayment (by decide)).2.1 (by decide)
